import Mathlib

/-!
Verification of the LG SW49410 rev1 MIPI-DSI panel driver
(drivers/gpu/drm/panel/panel-lg-sw49410-rev1.c).

The driver is shallowly embedded: the mutable `struct panel_info` fields
that the lifecycle functions touch become `PanelState`; every fallible
leaf call (regulator, pinctrl, backlight, DCS channel) draws its outcome
from a fault-injection environment `Env` (kernel convention: `0` success,
negative errno failure; DCS writes may also return a positive byte
count); every hardware-visible action is recorded in a trace of `IOEv`
events so that ordering and "no hardware I/O" claims are statable.
-/

set_option maxHeartbeats 1000000
set_option linter.unnecessarySeqFocus false

/-- Hardware-visible actions performed by the driver.  Each fallible
action also records the result the leaf call returned, mirroring the
value the C code inspects. -/
inductive IOEv where
  | regSetLoad (microamp : Nat) (res : Int)
  | regBulkEnable (res : Int)
  | regBulkDisable (res : Int)
  | gpioSet (v : Nat)
  | sleepUs (us : Nat)
  | pinctrlSelect (active : Bool) (res : Int)
  | dcsWrite (addr : Nat) (payload : List Nat) (res : Int)
  | backlightOn (res : Int)
deriving DecidableEq

/-- The mutable runtime state of `struct panel_info` (the fields the
lifecycle functions read or write), plus the value last driven onto the
reset GPIO line. -/
structure PanelState where
  prepared : Bool
  enabled : Bool
  first_enable : Bool
  brightness : Nat
  max_brightness : Nat
  resetGpio : Nat
deriving DecidableEq

/-- Result of a lifecycle entry point: the returned `int`, the panel
state on exit, and the trace of hardware actions performed. -/
structure PR where
  res : Int
  st : PanelState
  evs : List IOEv
deriving DecidableEq

/-- Fault-injection oracle: one outcome per fallible leaf call site.
Field prefixes: `rab` = panel_reset_at_beginning, `po` = lg_panel_power_on,
`off` = lg_panel_power_off.  `seqWrite i` is the outcome of the i-th
dsi_dcs_write_seq statement in lg_panel_prepare.  Defaults model an
all-success run. -/
structure Env where
  rabSetLoadEnable : Int := 0
  rabBulkEnable : Int := 0
  rabSetLoadDisable : Int := 0
  rabBulkDisable : Int := 0
  poSetLoadEnable : Int := 0
  poBulkEnable : Int := 0
  poPinctrlActive : Int := 0
  tearOn : Int := 0
  pageAddress : Int := 0
  dispBrightness : Int := 0
  seqWrite : Nat → Int := fun _ => 0
  exitSleep : Int := 0
  compressionMode : Int := 0
  blackFrame : Int := 0
  displayOn : Int := 0
  backlightOn : Int := 0
  offPinctrlSuspend : Int := 0
  offSetLoadDisable : Int := 0
  offBulkDisable : Int := 0

/-- regulator_enable_loads[0] in the source. -/
def regulatorEnableLoad : Nat := 1700000

/-- regulator_disable_loads[0] in the source. -/
def regulatorDisableLoad : Nat := 100

/-! ## CommandBatch engine: send_mipi_cmds

A `panel_cmd` is its byte sequence `[delay_ms, dcs_address, payload...]`;
the zero-length entry is the batch sentinel.  The DCS channel is a
per-write outcome oracle `ch : Nat → Int` (result of the i-th
`mipi_dsi_dcs_write` issued by this call; negative = failure, as the
code checks `err < 0`). -/

/-- The single write that send_mipi_cmds issues for a non-sentinel
command: an address-only write when `len == 2`, otherwise the address
with the bytes after it as payload.  (Mirrors lines 173-179.) -/
def cmdWriteEv (r : Int) (c : List Nat) : IOEv :=
  IOEv.dcsWrite (c.getD 1 0) (if c.length = 2 then [] else c.drop 2) r

/-- The loop of send_mipi_cmds (lines 170-186): iterate until the first
zero-length entry; write each command, abort with the channel error on
failure, otherwise sleep the command's first byte in milliseconds
(usleep_range(data[0]*1000, ...)) and continue.  `i` indexes the oracle.
Running off the end of the list without a sentinel is out of the C
code's contract (it would read past the array), modelled as `none`. -/
def sendLoop (ch : Nat → Int) (i : Nat) : List (List Nat) → Option (Int × List IOEv)
  | [] => none
  | c :: rest =>
    if c.length = 0 then some (0, [])
    else
      let r := ch i
      if r < 0 then some (r, [cmdWriteEv r c])
      else
        match sendLoop ch (i + 1) rest with
        | none => none
        | some (res, evs) =>
            some (res, cmdWriteEv r c :: IOEv.sleepUs (c.getD 0 0 * 1000) :: evs)

/-- send_mipi_cmds (lines 159-189).  The `!cmds` NULL-pointer guard of
the C code cannot arise for a Lean list and is not modelled. -/
def send_mipi_cmds (ch : Nat → Int) (cmds : List (List Nat)) : Option (Int × List IOEv) :=
  sendLoop ch 0 cmds

/-- Modelled from the spec: the trace the spec's batch-ordering sentence
demands for commands C1..Cn — for each command in order, its single
write immediately followed by its first-byte delay (in milliseconds),
before the next command's write. -/
def specBatchTrace (ch : Nat → Int) : Nat → List (List Nat) → List IOEv
  | _, [] => []
  | i, c :: rest =>
      cmdWriteEv (ch i) c :: IOEv.sleepUs (c.getD 0 0 * 1000) :: specBatchTrace ch (i + 1) rest

/-! ## PowerSequencer -/

/-- panel_set_pinctrl_state (lines 191-208): selects the active or
suspend pinctrl state and returns the select result unchanged. -/
def panel_set_pinctrl_state (outcome : Int) (active : Bool) : Int × List IOEv :=
  (outcome, [IOEv.pinctrlSelect active outcome])

/-- panel_reset_at_beginning (lines 105-157): set enable loads
(abort if nonzero), bulk enable (abort if negative), set disable loads
(abort if nonzero), bulk disable (abort if negative), then pulse the
reset line high/low/high with 30 ms holds. -/
def panel_reset_at_beginning (e : Env) (s : PanelState) : PR :=
  let r1 := e.rabSetLoadEnable
  if r1 ≠ 0 then ⟨r1, s, [IOEv.regSetLoad regulatorEnableLoad r1]⟩
  else
    let r2 := e.rabBulkEnable
    if r2 < 0 then
      ⟨r2, s, [IOEv.regSetLoad regulatorEnableLoad r1, IOEv.regBulkEnable r2]⟩
    else
      let r3 := e.rabSetLoadDisable
      if r3 ≠ 0 then
        ⟨r3, s, [IOEv.regSetLoad regulatorEnableLoad r1, IOEv.regBulkEnable r2,
                 IOEv.regSetLoad regulatorDisableLoad r3]⟩
      else
        let r4 := e.rabBulkDisable
        if r4 < 0 then
          ⟨r4, s, [IOEv.regSetLoad regulatorEnableLoad r1, IOEv.regBulkEnable r2,
                   IOEv.regSetLoad regulatorDisableLoad r3, IOEv.regBulkDisable r4]⟩
        else
          ⟨0, { s with resetGpio := 1 },
           [IOEv.regSetLoad regulatorEnableLoad r1, IOEv.regBulkEnable r2,
            IOEv.regSetLoad regulatorDisableLoad r3, IOEv.regBulkDisable r4,
            IOEv.gpioSet 1, IOEv.sleepUs 30000, IOEv.gpioSet 0, IOEv.sleepUs 30000,
            IOEv.gpioSet 1, IOEv.sleepUs 30000]⟩

/-- lg_panel_power_on (lines 298-339): set enable loads (abort if
nonzero), bulk enable (abort if negative), select active pinctrl state
(abort if nonzero), then pulse reset high/low/high with 30 ms holds. -/
def lg_panel_power_on (e : Env) (s : PanelState) : PR :=
  let r1 := e.poSetLoadEnable
  if r1 ≠ 0 then ⟨r1, s, [IOEv.regSetLoad regulatorEnableLoad r1]⟩
  else
    let r2 := e.poBulkEnable
    if r2 < 0 then
      ⟨r2, s, [IOEv.regSetLoad regulatorEnableLoad r1, IOEv.regBulkEnable r2]⟩
    else
      let p := panel_set_pinctrl_state e.poPinctrlActive true
      if p.1 ≠ 0 then
        ⟨p.1, s, [IOEv.regSetLoad regulatorEnableLoad r1, IOEv.regBulkEnable r2] ++ p.2⟩
      else
        ⟨0, { s with resetGpio := 1 },
         [IOEv.regSetLoad regulatorEnableLoad r1, IOEv.regBulkEnable r2] ++ p.2 ++
         [IOEv.gpioSet 1, IOEv.sleepUs 30000, IOEv.gpioSet 0, IOEv.sleepUs 30000,
          IOEv.gpioSet 1, IOEv.sleepUs 30000]⟩

/-- lg_panel_power_off (lines 224-254): drive reset low, select suspend
pinctrl state (RETURNS immediately if nonzero), set disable loads
(RETURNS immediately if nonzero), bulk disable (failure only logged,
result returned). -/
def lg_panel_power_off (e : Env) (s : PanelState) : PR :=
  let s0 := { s with resetGpio := 0 }
  let p := panel_set_pinctrl_state e.offPinctrlSuspend false
  if p.1 ≠ 0 then ⟨p.1, s0, IOEv.gpioSet 0 :: p.2⟩
  else
    let r2 := e.offSetLoadDisable
    if r2 ≠ 0 then
      ⟨r2, s0, IOEv.gpioSet 0 :: p.2 ++ [IOEv.regSetLoad regulatorDisableLoad r2]⟩
    else
      let r3 := e.offBulkDisable
      ⟨r3, s0, IOEv.gpioSet 0 :: p.2 ++
               [IOEv.regSetLoad regulatorDisableLoad r2, IOEv.regBulkDisable r3]⟩

/-! ## Deployed no-op teardown entry points -/

/-- lg_panel_disable (lines 210-222): the deployed body is
`return 0;` with the backlight-disable teardown compiled out
behind `#if 0`. -/
def lg_panel_disable (s : PanelState) : PR := ⟨0, s, []⟩

/-- lg_panel_unprepare (lines 256-296): the deployed body is
`return 0;` (resume-regression workaround); the display-off /
sleep-in / power-off teardown is compiled out behind `#if 0`. -/
def lg_panel_unprepare (s : PanelState) : PR := ⟨0, s, []⟩

/-! ## The inline DCS init table of lg_panel_prepare

Each dsi_dcs_write_seq statement of lg_panel_prepare (lines 390-550) is
one (address, payload) pair, in program order.  MIPI DCS constants:
WRITE_CONTROL_DISPLAY = 0x53, SET_CABC_MIN_BRIGHTNESS = 0x5e,
WRITE_POWER_SAVE = 0x55, ENTER_NORMAL_MODE = 0x13. -/

/-- The 44 dsi_dcs_write_seq writes issued by lg_panel_prepare between
the brightness setup call and the sleep-mode exit, in program order. -/
def onSeqCmds : List (Nat × List Nat) := [
  (0x53, [0x2c]),
  (0x5e, [0x00]),
  (0x55, [0x81]),
  (0xb0, [0xac]),
  (0xb3, [0x04, 0x04, 0x28, 0x08, 0x5a, 0x12, 0x23, 0x02]),
  (0xb4, [0x11, 0x04, 0x02, 0x02, 0x02, 0x02, 0x02, 0x01, 0x01,
          0x01, 0x01, 0x01, 0x01, 0xd0, 0xe4, 0xe4, 0xe4, 0x93,
          0x4e, 0x39, 0x0a, 0x10, 0x18, 0x25, 0x24, 0x00, 0x00,
          0x00, 0x00, 0x00, 0x00]),
  (0xb5, [0x2e, 0x0f, 0x10, 0xc0, 0x00, 0x10, 0xc0, 0x00]),
  (0xb6, [0x03, 0x05, 0x0b, 0xb3, 0x30]),
  (0xb8, [0x57, 0x02, 0x90, 0x40, 0x5d, 0xd0, 0x05, 0x00, 0x00,
          0x18, 0x22, 0x04, 0x01, 0x02, 0x90, 0x40, 0x4c, 0xc0,
          0x04, 0x00, 0x00, 0x18, 0x22, 0x04, 0x01, 0x08, 0x00,
          0x3a, 0x86, 0x83, 0x00]),
  (0xb9, [0x64, 0x64, 0x2a, 0x3f, 0xee]),
  (0xba, [0x3d, 0x1f, 0x01, 0xff, 0x01, 0x3c, 0x1f, 0x01, 0xff,
          0x01, 0x00]),
  (0xbc, [0x00, 0x00, 0x00, 0x90]),
  (0xbd, [0x00, 0x00]),
  (0xbf, [0x4f, 0x02]),
  (0xc0, [0x00, 0x04, 0x18, 0x07, 0x11, 0x11, 0x3c, 0x00, 0x0a,
          0x0a]),
  (0xc1, [0x01, 0x00, 0xf0, 0xc2, 0xcf, 0x0c]),
  (0xc2, [0xcc, 0x44, 0x44, 0x20, 0x22, 0x26, 0x21, 0x00]),
  (0xc3, [0x92, 0x11, 0x09, 0x09, 0x11, 0xcc, 0x02, 0x02, 0xa4,
          0xa4, 0x02, 0xa2, 0x38, 0x28, 0x14, 0x40, 0x38, 0xc0]),
  (0xc4, [0x26, 0x00]),
  (0xc9, [0x05, 0x5d, 0x03, 0x04, 0x00]),
  (0xca, [0x9b, 0x10]),
  (0xcb, [0xf3, 0x90, 0x3d, 0x30, 0xcc]),
  (0xcc, [0x00, 0x40, 0x50, 0x90, 0x41]),
  (0xce, [0x00, 0x00]),
  (0xd0, [0x12, 0x05, 0x20, 0x1b, 0x2c, 0x28, 0x3f, 0x3d, 0x4f,
          0x4f, 0x66, 0x66, 0x6e, 0x6e, 0x76, 0x76, 0x80, 0x80,
          0x88, 0x88, 0x95, 0x95, 0x3f, 0x3f, 0xa2, 0xa2, 0x94,
          0x94, 0x8b, 0x8b, 0x81, 0x81, 0x75, 0x75, 0x66, 0x66,
          0x47, 0x47, 0x2d, 0x2d, 0x00, 0x01, 0x12, 0x05, 0x20,
          0x1b, 0x2c, 0x28, 0x3f, 0x3d, 0x4f, 0x4f, 0x66, 0x66,
          0x6e, 0x6e, 0x76, 0x76, 0x80, 0x80, 0x88, 0x88, 0x95,
          0x95, 0x3f, 0x3f, 0xa2, 0xa2, 0x94, 0x94, 0x8b, 0x8b,
          0x81, 0x81, 0x75, 0x75, 0x66, 0x66, 0x47, 0x47, 0x2d,
          0x2d, 0x00, 0x01, 0x12, 0x05, 0x20, 0x1b, 0x2c, 0x28,
          0x3f, 0x3d, 0x4f, 0x4f, 0x66, 0x66, 0x6e, 0x6e, 0x76,
          0x76, 0x80, 0x80, 0x88, 0x88, 0x95, 0x95, 0x3f, 0x3f,
          0xa2, 0xa2, 0x94, 0x94, 0x8b, 0x8b, 0x81, 0x81, 0x75,
          0x75, 0x66, 0x66, 0x47, 0x47, 0x2d, 0x2d, 0x00, 0x01,
          0x12, 0x05, 0x20, 0x1b, 0x2c, 0x28, 0x3f, 0x3d, 0x4f,
          0x4f, 0x66, 0x66, 0x6e, 0x6e, 0x76, 0x76, 0x80, 0x80,
          0x88, 0x88, 0x94, 0x94, 0x3f, 0x3f, 0xa4, 0xa4, 0x95,
          0x95, 0x8b, 0x8b, 0x81, 0x81, 0x75, 0x75, 0x66, 0x66,
          0x47, 0x47, 0x2d, 0x2d, 0x00, 0x01]),
  (0xd1, [0x12, 0x05, 0x20, 0x1b, 0x2e, 0x29, 0x41, 0x3f, 0x52,
          0x52, 0x6a, 0x6a, 0x72, 0x72, 0x7a, 0x7a, 0x84, 0x84,
          0x8c, 0x8c, 0x9a, 0x9a, 0x3f, 0x3f, 0x9b, 0x9b, 0x8d,
          0x8d, 0x84, 0x84, 0x7a, 0x7a, 0x6e, 0x6e, 0x5f, 0x5f,
          0x41, 0x41, 0x2a, 0x2a, 0x00, 0x01, 0x12, 0x05, 0x20,
          0x1b, 0x2e, 0x29, 0x41, 0x3f, 0x52, 0x52, 0x6a, 0x6a,
          0x72, 0x72, 0x7a, 0x7a, 0x84, 0x84, 0x8c, 0x8c, 0x9a,
          0x9a, 0x3f, 0x3f, 0x9b, 0x9b, 0x8d, 0x8d, 0x84, 0x84,
          0x7a, 0x7a, 0x6e, 0x6e, 0x5f, 0x5f, 0x41, 0x41, 0x2a,
          0x2a, 0x00, 0x01, 0x12, 0x05, 0x20, 0x1b, 0x2e, 0x29,
          0x41, 0x3f, 0x52, 0x52, 0x6a, 0x6a, 0x72, 0x72, 0x7a,
          0x7a, 0x84, 0x84, 0x8c, 0x8c, 0x9a, 0x9a, 0x3f, 0x3f,
          0x9b, 0x9b, 0x8d, 0x8d, 0x84, 0x84, 0x7a, 0x7a, 0x6e,
          0x6e, 0x5f, 0x5f, 0x41, 0x41, 0x2a, 0x2a, 0x00, 0x01,
          0x12, 0x05, 0x20, 0x1b, 0x2e, 0x29, 0x41, 0x3f, 0x52,
          0x52, 0x6a, 0x6a, 0x72, 0x72, 0x7a, 0x7a, 0x84, 0x84,
          0x8c, 0x8c, 0x9a, 0x9a, 0x3f, 0x3f, 0x9b, 0x9b, 0x8d,
          0x8d, 0x84, 0x84, 0x7a, 0x7a, 0x6e, 0x6e, 0x5f, 0x5f,
          0x41, 0x41, 0x2a, 0x2a, 0x00, 0x01]),
  (0xd2, [0x12, 0x05, 0x20, 0x1b, 0x2f, 0x2a, 0x43, 0x41, 0x55,
          0x55, 0x6e, 0x6e, 0x76, 0x76, 0x7e, 0x7e, 0x88, 0x88,
          0x90, 0x90, 0x9f, 0x9f, 0x3f, 0x3f, 0x95, 0x95, 0x86,
          0x86, 0x7d, 0x7d, 0x74, 0x74, 0x68, 0x68, 0x59, 0x59,
          0x3c, 0x3c, 0x26, 0x26, 0x00, 0x01, 0x12, 0x05, 0x20,
          0x1b, 0x2f, 0x2a, 0x43, 0x41, 0x55, 0x55, 0x6e, 0x6e,
          0x76, 0x76, 0x7e, 0x7e, 0x88, 0x88, 0x90, 0x90, 0x9f,
          0x9f, 0x3f, 0x3f, 0x95, 0x95, 0x86, 0x86, 0x7d, 0x7d,
          0x74, 0x74, 0x68, 0x68, 0x59, 0x59, 0x3c, 0x3c, 0x26,
          0x26, 0x00, 0x01, 0x12, 0x05, 0x20, 0x1b, 0x2f, 0x2a,
          0x43, 0x41, 0x55, 0x55, 0x6e, 0x6e, 0x76, 0x76, 0x7e,
          0x7e, 0x88, 0x88, 0x90, 0x90, 0x9f, 0x9f, 0x3f, 0x3f,
          0x95, 0x95, 0x86, 0x86, 0x7d, 0x7d, 0x74, 0x74, 0x68,
          0x68, 0x59, 0x59, 0x3c, 0x3c, 0x26, 0x26, 0x00, 0x01,
          0x12, 0x05, 0x20, 0x1b, 0x2f, 0x2a, 0x43, 0x41, 0x55,
          0x55, 0x6e, 0x6e, 0x76, 0x76, 0x7e, 0x7e, 0x88, 0x88,
          0x90, 0x90, 0x9f, 0x9f, 0x3f, 0x3f, 0x95, 0x95, 0x86,
          0x86, 0x7d, 0x7d, 0x74, 0x74, 0x68, 0x68, 0x59, 0x59,
          0x3c, 0x3c, 0x26, 0x26, 0x00, 0x01]),
  (0xd3, [0x12, 0x01, 0x00, 0x00]),
  (0xd4, [0xdc, 0x5f, 0x9c, 0xbe, 0x39, 0x39, 0x39, 0x47, 0x48,
          0x48, 0x48, 0x3a, 0x00, 0x03, 0x6d, 0x80, 0x00, 0x00,
          0x8c, 0x66, 0x00, 0x00, 0x8c, 0x66, 0x00, 0x00, 0x8c,
          0x66, 0x00, 0x0a, 0x48, 0x80, 0x00, 0x0a, 0x48, 0x80,
          0x00, 0x0a, 0x48, 0x80, 0x00, 0x0a, 0x48, 0x80, 0x20,
          0x0a, 0x14, 0x0a, 0x18, 0x00, 0x1c, 0xcc, 0x23, 0x9e,
          0x23, 0x9e, 0x01, 0x01, 0x01, 0x01, 0x04, 0x04, 0x04,
          0x04, 0x01, 0x00, 0x02, 0x80, 0x00, 0x10, 0x00, 0x10,
          0x00, 0x10, 0x13, 0x9e, 0x13, 0x9e, 0x13, 0x9e, 0x13,
          0x9e, 0x05, 0x05, 0x05, 0x05, 0x05, 0x05, 0x05, 0x05,
          0x23, 0x9e, 0xff, 0xff, 0x13, 0x33, 0x18, 0x00, 0x16,
          0x66, 0x10, 0x00, 0xff, 0x01, 0x00, 0x02, 0x00, 0x03,
          0x00, 0x04, 0x00, 0x05, 0x00, 0x06, 0x00, 0x07, 0x00,
          0x08, 0x00, 0x09, 0x00, 0x0a, 0x00, 0x0b, 0x00, 0x0c,
          0x00, 0x0d, 0x00, 0x0e, 0x00, 0x0f, 0x00, 0x1b, 0x25,
          0xdc, 0x18, 0x00, 0x20, 0x00, 0x1c, 0xe1, 0x00, 0xff,
          0xe0, 0xc8, 0xc8, 0x41, 0x8f]),
  (0xad, [0x01, 0x02, 0x03, 0x04, 0x05, 0x06, 0x06, 0x06, 0x06,
          0x06, 0x06, 0x06, 0x06, 0x06, 0x06, 0x06, 0x20, 0x40,
          0x60, 0x90, 0xc0, 0xf0, 0xff, 0xff, 0xff, 0xff, 0xff,
          0xff, 0xff, 0xff, 0xff, 0xff]),
  (0xae, [0x01, 0x02, 0x03, 0x04, 0x05, 0x06, 0x06, 0x06, 0x06,
          0x06, 0x06, 0x06, 0x06, 0x06, 0x06, 0x06, 0x20, 0x40,
          0x60, 0x90, 0xc0, 0xf0, 0xff, 0xff, 0xff, 0xff, 0xff,
          0xff, 0xff, 0xff, 0xff, 0xff]),
  (0xe5, [0x0b, 0x0a, 0x0c, 0x00, 0x02, 0x04, 0x06, 0x08, 0x0f,
          0x1b, 0x02, 0x1a, 0x1a, 0x0b, 0x0a, 0x0c, 0x01, 0x03,
          0x05, 0x07, 0x09, 0x10, 0x1b, 0x03, 0x1a, 0x1a]),
  (0xe6, [0x11, 0x12, 0x13, 0x14, 0x15, 0x16, 0x17, 0x18, 0x11,
          0x12, 0x13, 0x14, 0x15, 0x16, 0x17, 0x18]),
  (0xed, [0x21, 0x49, 0x00, 0x00, 0x00, 0x00]),
  (0x55, [0x81]),
  (0xf3, [0x00, 0x01, 0x00, 0x0d, 0x00]),
  (0xf4, [0x00, 0x00, 0x40, 0x83, 0xc5, 0x00, 0x01, 0x00, 0x00,
          0x00, 0x00, 0x00, 0x00]),
  (0xfb, [0x20, 0x40, 0x60, 0x80, 0xa0, 0xc0, 0xe0, 0x13, 0x18,
          0x18, 0x18, 0x16, 0x0d, 0x0d, 0x00, 0xc7, 0xcf, 0xd8,
          0xe1, 0xea, 0xf3, 0xf9, 0xff]),
  (0xf5, [0x00]),
  (0xf6, [0x40, 0x40, 0x40, 0x40, 0x40, 0x40, 0x40, 0x40, 0x00,
          0x00, 0x00, 0x00, 0x00, 0x00, 0x00, 0x00]),
  (0xf7, [0x40, 0x40, 0x40, 0x40, 0x40, 0x40, 0x40, 0x40, 0x00,
          0x00, 0x00, 0x00, 0x00, 0x00, 0x00, 0x00]),
  (0xf8, [0x40, 0x40, 0x40, 0x40, 0x40, 0x40, 0x40, 0x40, 0x00,
          0x00, 0x00, 0x00, 0x00, 0x00, 0x00, 0x00]),
  (0xfc, [0x13, 0x70, 0xd0, 0x26, 0x30, 0x7c, 0x02, 0xff, 0x12,
          0x22, 0x22, 0x10, 0x00]),
  (0x13, [])]

/-- Runs one dsi_dcs_write_seq statement per list entry: a buffer write
of the address with the payload; a negative result returns immediately
from lg_panel_prepare (the macro's `if (ret < 0) return ret`).  `j`
indexes the per-statement outcome oracle. -/
def runWriteSeqs (w : Nat → Int) (j : Nat) : List (Nat × List Nat) → Int × List IOEv
  | [] => (0, [])
  | (a, p) :: rest =>
    let r := w j
    if r < 0 then (r, [IOEv.dcsWrite a p r])
    else
      let t := runWriteSeqs w (j + 1) rest
      (t.1, IOEv.dcsWrite a p r :: t.2)

/-! ## PanelLifecycle -/

/-- The body of lg_panel_prepare after the first_enable gate (lines
359-586): no-op if already prepared; else initial settle delay, power
on (failure jumps to the poweroff label: drive reset high, return the
error), the tear-on / page-address / brightness DCS setup calls, the 44
inline dsi_dcs_write_seq writes, sleep-mode exit plus 256 ms settle,
compression mode (failure also jumps to poweroff), the black-frame
write, display-on, the 5 ms and 120 ms settles, and only then
`prepared = true`. -/
def lg_panel_prepare_main (e : Env) (s : PanelState) : PR :=
  if s.prepared then ⟨0, s, []⟩
  else
    let po := lg_panel_power_on e s
    let evs0 := IOEv.sleepUs 5000 :: po.evs
    if po.res < 0 then
      ⟨po.res, { po.st with resetGpio := 1 }, evs0 ++ [IOEv.gpioSet 1]⟩
    else
      let r1 := e.tearOn
      let evs1 := evs0 ++ [IOEv.dcsWrite 0x35 [0x00] r1]
      if r1 < 0 then ⟨r1, po.st, evs1⟩
      else
        let r2 := e.pageAddress
        let evs2 := evs1 ++ [IOEv.dcsWrite 0x2b [0x00, 0x00, 0x0c, 0x2f] r2]
        if r2 < 0 then ⟨r2, po.st, evs2⟩
        else
          let r3 := e.dispBrightness
          let evs3 := evs2 ++ [IOEv.dcsWrite 0x51 [0xff, 0x00] r3]
          if r3 < 0 then ⟨r3, po.st, evs3⟩
          else
            let ws := runWriteSeqs e.seqWrite 0 onSeqCmds
            let evs4 := evs3 ++ ws.2
            if ws.1 < 0 then ⟨ws.1, po.st, evs4⟩
            else
              let r4 := e.exitSleep
              let evs5 := evs4 ++ [IOEv.dcsWrite 0x11 [] r4]
              if r4 < 0 then ⟨r4, po.st, evs5⟩
              else
                let r5 := e.compressionMode
                let evs6 := evs5 ++ [IOEv.sleepUs 256000, IOEv.dcsWrite 0x07 [] r5]
                if r5 < 0 then
                  ⟨r5, { po.st with resetGpio := 1 }, evs6 ++ [IOEv.gpioSet 1]⟩
                else
                  let r6 := e.blackFrame
                  let evs7 := evs6 ++ [IOEv.dcsWrite 0xbd [0x01, 0x05] r6]
                  if r6 < 0 then ⟨r6, po.st, evs7⟩
                  else
                    let r7 := e.displayOn
                    let evs8 := evs7 ++ [IOEv.dcsWrite 0x29 [] r7]
                    if r7 < 0 then ⟨r7, po.st, evs8⟩
                    else
                      ⟨0, { po.st with prepared := true },
                       evs8 ++ [IOEv.sleepUs 5000, IOEv.sleepUs 120000]⟩

/-- lg_panel_prepare (lines 341-586): when first_enable is set it is
cleared and panel_reset_at_beginning runs, its failure returned
directly; then the main prepare body. -/
def lg_panel_prepare (e : Env) (s : PanelState) : PR :=
  if s.first_enable then
    let s1 := { s with first_enable := false }
    let rb := panel_reset_at_beginning e s1
    if rb.res < 0 then rb
    else
      let m := lg_panel_prepare_main e rb.st
      ⟨m.res, m.st, rb.evs ++ m.evs⟩
  else lg_panel_prepare_main e s

/-- lg_panel_enable (lines 588-627): no-op if already enabled; enable
the backlight (abort with its error if nonzero).  The panel always has
DSC parameters (panel_probe sets them), but the
picture-parameter-set payload is only packed and hex-dumped — the
transmit call is commented out — so no DCS write is issued.  Finally
`enabled = true`.  Note: `prepared` is never checked. -/
def lg_panel_enable (e : Env) (s : PanelState) : PR :=
  if s.enabled then ⟨0, s, []⟩
  else
    let r := e.backlightOn
    if r ≠ 0 then ⟨r, s, [IOEv.backlightOn r]⟩
    else ⟨0, { s with enabled := true }, [IOEv.backlightOn r]⟩

/-! ## BrightnessController -/

/-- FB_BLANK_UNBLANK from linux/fb.h. -/
def FB_BLANK_UNBLANK : Nat := 0

/-- BL_CORE_FBBLANK from linux/backlight.h (bit 1). -/
def BL_CORE_FBBLANK : Nat := 2

/-- The backlight request fields lg_panel_backlight_update_status reads
from `bl->props`. -/
structure BLProps where
  power : Nat
  fb_blank : Nat
  state : Nat
  brightness : Nat
deriving DecidableEq

/-- lg_panel_backlight_update_status (lines 653-671): mask the stored
brightness to 0 when the request is blanked in any of the three ways,
else store the requested brightness; then issue one DCS
set-display-brightness (0x51) write of the stored value (truncated to
u16, sent low byte first) whose channel outcome `ch` is returned
unchanged. -/
def lg_panel_backlight_update_status (ch : Int) (bl : BLProps) (s : PanelState) : PR :=
  let b :=
    if bl.power ≠ FB_BLANK_UNBLANK ∨ bl.fb_blank ≠ FB_BLANK_UNBLANK ∨
       bl.state &&& BL_CORE_FBBLANK ≠ 0 then 0
    else bl.brightness
  let s1 := { s with brightness := b }
  let tx := b % 65536
  ⟨ch, s1, [IOEv.dcsWrite 0x51 [tx % 256, tx / 256] ch]⟩

/-! ## Initial state and reachability -/

/-- The panel state panel_probe constructs: panel_info is
devm_kzalloc-ed (all fields zero, so `prepared`, `enabled` and
`first_enable` all start false), lg_panel_backlight_init sets
brightness = max_brightness = 255, and the reset GPIO is acquired with
GPIOD_OUT_HIGH (line high). -/
def initialState : PanelState :=
  { prepared := false, enabled := false, first_enable := false,
    brightness := 255, max_brightness := 255, resetGpio := 1 }

/-- States reachable from the probed panel under any sequence of
prepare / unprepare / enable / disable calls with any leaf outcomes. -/
inductive Reach : PanelState → Prop where
  | init : Reach initialState
  | prep (e : Env) {s : PanelState} : Reach s → Reach (lg_panel_prepare e s).st
  | unprep {s : PanelState} : Reach s → Reach (lg_panel_unprepare s).st
  | en (e : Env) {s : PanelState} : Reach s → Reach (lg_panel_enable e s).st
  | dis {s : PanelState} : Reach s → Reach (lg_panel_disable s).st

/-- Modelled from the spec: reachability restricted to call sequences
in which enable() is only invoked in states that are already prepared —
the ordering the host DRM framework guarantees (prepare before
enable). -/
inductive GReach : PanelState → Prop where
  | init : GReach initialState
  | prep (e : Env) {s : PanelState} : GReach s → GReach (lg_panel_prepare e s).st
  | unprep {s : PanelState} : GReach s → GReach (lg_panel_unprepare s).st
  | en (e : Env) {s : PanelState} : GReach s → s.prepared = true →
      GReach (lg_panel_enable e s).st
  | dis {s : PanelState} : GReach s → GReach (lg_panel_disable s).st

/-! ## Helper predicates -/

/-- True for the regulator leaf actions (load setting, bulk
enable/disable). -/
def touchesRegulator : IOEv → Bool
  | IOEv.regSetLoad _ _ => true
  | IOEv.regBulkEnable _ => true
  | IOEv.regBulkDisable _ => true
  | _ => false

/-- True exactly for the bulk-disable regulator action.  Within
lg_panel_prepare, only panel_reset_at_beginning ever bulk-disables the
rails (its pre-conditioning step), so a prepare trace free of this
event is a prepare call in which panel_reset_at_beginning did not
run. -/
def isBulkDisableEv : IOEv → Bool
  | IOEv.regBulkDisable _ => true
  | _ => false

/-- All leaf operations that one pass of the main prepare body performs
succeed (each condition is the success side of the check the C code
applies to that call: `!= 0` for regulator load setting and pinctrl,
`< 0` for the rest). -/
def prepOpsSucceed (e : Env) : Prop :=
  e.poSetLoadEnable = 0 ∧ 0 ≤ e.poBulkEnable ∧ e.poPinctrlActive = 0 ∧
  0 ≤ e.tearOn ∧ 0 ≤ e.pageAddress ∧ 0 ≤ e.dispBrightness ∧
  (∀ i, i < onSeqCmds.length → 0 ≤ e.seqWrite i) ∧
  0 ≤ e.exitSleep ∧ 0 ≤ e.compressionMode ∧ 0 ≤ e.blackFrame ∧ 0 ≤ e.displayOn

instance (e : Env) : Decidable (prepOpsSucceed e) := by
  unfold prepOpsSucceed; infer_instance

/-! ## Structural lemmas -/

theorem power_on_spec (e : Env) (s : PanelState) :
    ((lg_panel_power_on e s).res = 0 ∧
      (lg_panel_power_on e s).st = { s with resetGpio := 1 } ∧
      e.poSetLoadEnable = 0 ∧ 0 ≤ e.poBulkEnable ∧ e.poPinctrlActive = 0) ∨
    ((lg_panel_power_on e s).res ≠ 0 ∧ (lg_panel_power_on e s).st = s ∧
      ((lg_panel_power_on e s).res < 0 ∨
        (lg_panel_power_on e s).res = e.poSetLoadEnable ∨
        (lg_panel_power_on e s).res = e.poPinctrlActive)) := by
  unfold lg_panel_power_on panel_set_pinctrl_state
  dsimp only
  split_ifs <;> simp_all <;> omega

theorem power_on_shape (e : Env) (s : PanelState) :
    (lg_panel_power_on e s).st = s ∨
    (lg_panel_power_on e s).st = { s with resetGpio := 1 } := by
  rcases power_on_spec e s with ⟨_, h, _⟩ | ⟨_, h, _⟩ <;> simp [h]

theorem reset_at_beginning_shape (e : Env) (s : PanelState) :
    (panel_reset_at_beginning e s).st = s ∨
    (panel_reset_at_beginning e s).st = { s with resetGpio := 1 } := by
  unfold panel_reset_at_beginning
  dsimp only
  split_ifs <;> simp

theorem runWriteSeqs_spec (w : Nat → Int) :
    ∀ (l : List (Nat × List Nat)) (j : Nat),
      ((runWriteSeqs w j l).1 = 0 ∧ ∀ i, i < l.length → 0 ≤ w (j + i)) ∨
      (runWriteSeqs w j l).1 < 0 := by
  intro l
  induction l with
  | nil => intro j; left; simp [runWriteSeqs]
  | cons c rest ih =>
    intro j
    rcases c with ⟨a, p⟩
    by_cases h : w j < 0
    · right; simp [runWriteSeqs, h]
    · rcases ih (j + 1) with ⟨h0, hall⟩ | hneg
      · left
        refine ⟨by simp [runWriteSeqs, h, h0], ?_⟩
        intro i hi
        cases i with
        | zero => simpa using not_lt.mp h
        | succ i =>
          have := hall i (by simpa using Nat.lt_of_succ_lt_succ hi)
          simpa [Nat.add_assoc, Nat.add_comm 1 i] using this
      · right; simp [runWriteSeqs, h, hneg]

theorem prepare_main_shape (e : Env) (s : PanelState) :
    (lg_panel_prepare_main e s).st = s ∨
    (lg_panel_prepare_main e s).st = { s with resetGpio := 1 } ∨
    (lg_panel_prepare_main e s).st = { s with prepared := true } ∨
    (lg_panel_prepare_main e s).st = { s with resetGpio := 1, prepared := true } := by
  have hpo := power_on_shape e s
  unfold lg_panel_prepare_main
  dsimp only
  rcases hpo with h | h <;> rw [h]
  all_goals
    by_cases h1 : s.prepared = true
  case pos => rw [if_pos h1]; left; rfl
  case pos => rw [if_pos h1]; left; rfl
  all_goals rw [if_neg h1]
  all_goals
    by_cases h2 : (lg_panel_power_on e s).res < 0
  case pos => rw [if_pos h2]; simp
  case pos => rw [if_pos h2]; simp
  all_goals rw [if_neg h2]
  all_goals
    by_cases h3 : e.tearOn < 0
  case pos => rw [if_pos h3]; simp
  case pos => rw [if_pos h3]; simp
  all_goals rw [if_neg h3]
  all_goals
    by_cases h4 : e.pageAddress < 0
  case pos => rw [if_pos h4]; simp
  case pos => rw [if_pos h4]; simp
  all_goals rw [if_neg h4]
  all_goals
    by_cases h5 : e.dispBrightness < 0
  case pos => rw [if_pos h5]; simp
  case pos => rw [if_pos h5]; simp
  all_goals rw [if_neg h5]
  all_goals
    by_cases h6 : (runWriteSeqs e.seqWrite 0 onSeqCmds).1 < 0
  case pos => rw [if_pos h6]; simp
  case pos => rw [if_pos h6]; simp
  all_goals rw [if_neg h6]
  all_goals
    by_cases h7 : e.exitSleep < 0
  case pos => rw [if_pos h7]; simp
  case pos => rw [if_pos h7]; simp
  all_goals rw [if_neg h7]
  all_goals
    by_cases h8 : e.compressionMode < 0
  case pos => rw [if_pos h8]; simp
  case pos => rw [if_pos h8]; simp
  all_goals rw [if_neg h8]
  all_goals
    by_cases h9 : e.blackFrame < 0
  case pos => rw [if_pos h9]; simp
  case pos => rw [if_pos h9]; simp
  all_goals rw [if_neg h9]
  all_goals
    by_cases h10 : e.displayOn < 0
  case pos => rw [if_pos h10]; simp
  case pos => rw [if_pos h10]; simp
  all_goals rw [if_neg h10]
  all_goals simp

theorem prepare_shape (e : Env) (s : PanelState) :
    ∃ t : PanelState,
      ((lg_panel_prepare e s).st = t ∨
        (lg_panel_prepare e s).st = { t with resetGpio := 1 } ∨
        (lg_panel_prepare e s).st = { t with prepared := true } ∨
        (lg_panel_prepare e s).st = { t with resetGpio := 1, prepared := true }) ∧
      (t = s ∨ t = { s with first_enable := false } ∨
        t = { s with first_enable := false, resetGpio := 1 }) := by
  unfold lg_panel_prepare
  dsimp only
  by_cases hfe : s.first_enable = true
  · rw [if_pos hfe]
    have hr := reset_at_beginning_shape e { s with first_enable := false }
    by_cases hres : (panel_reset_at_beginning e { s with first_enable := false }).res < 0
    · rw [if_pos hres]
      rcases hr with h | h
      · exact ⟨{ s with first_enable := false }, Or.inl h, Or.inr (Or.inl rfl)⟩
      · exact ⟨{ s with first_enable := false, resetGpio := 1 },
          Or.inl (by rw [h]), Or.inr (Or.inr rfl)⟩
    · rw [if_neg hres]
      refine ⟨(panel_reset_at_beginning e { s with first_enable := false }).st,
        prepare_main_shape e _, ?_⟩
      rcases hr with h | h <;> rw [h] <;> simp
  · rw [if_neg hfe]
    exact ⟨s, prepare_main_shape e s, Or.inl rfl⟩

theorem prepare_enabled_eq (e : Env) (s : PanelState) :
    (lg_panel_prepare e s).st.enabled = s.enabled := by
  obtain ⟨t, h1, h2⟩ := prepare_shape e s
  rcases h1 with h | h | h | h <;> rcases h2 with h2 | h2 | h2 <;> subst h2 <;> simp [h]

theorem prepare_fe_false (e : Env) (s : PanelState) :
    (lg_panel_prepare e s).st.first_enable = false ∨
    (lg_panel_prepare e s).st.first_enable = s.first_enable := by
  obtain ⟨t, h1, h2⟩ := prepare_shape e s
  rcases h1 with h | h | h | h <;> rcases h2 with h2 | h2 | h2 <;> subst h2 <;> simp [h]

theorem prepare_prepared_mono (e : Env) (s : PanelState) (hp : s.prepared = true) :
    (lg_panel_prepare e s).st.prepared = true := by
  obtain ⟨t, h1, h2⟩ := prepare_shape e s
  rcases h1 with h | h | h | h <;> rcases h2 with h2 | h2 | h2 <;> subst h2 <;> simp_all

theorem enable_shape (e : Env) (s : PanelState) :
    (lg_panel_enable e s).st = s ∨
    (lg_panel_enable e s).st = { s with enabled := true } := by
  unfold lg_panel_enable
  dsimp only
  split_ifs <;> simp

theorem prepare_main_spec (e : Env) (s : PanelState)
    (hok1 : e.poSetLoadEnable ≤ 0) (hok2 : e.poPinctrlActive ≤ 0)
    (hp : s.prepared = false) :
    ((lg_panel_prepare_main e s).res = 0 ∧ prepOpsSucceed e) ∨
    ((lg_panel_prepare_main e s).res < 0 ∧
      (lg_panel_prepare_main e s).st.prepared = false ∧
      (lg_panel_prepare_main e s).st.resetGpio = 1) := by
  have hws := runWriteSeqs_spec e.seqWrite onSeqCmds 0
  rcases power_on_spec e s with ⟨hr0, hst, hf1, hf2, hf3⟩ | ⟨hne, hst, hsrc⟩
  · unfold lg_panel_prepare_main
    dsimp only
    rw [if_neg (by simp [hp]), if_neg (by rw [hr0]; omega)]
    by_cases h3 : e.tearOn < 0
    · rw [if_pos h3]; right
      refine ⟨h3, ?_, ?_⟩ <;> rw [hst] <;> simp [hp]
    · rw [if_neg h3]
      by_cases h4 : e.pageAddress < 0
      · rw [if_pos h4]; right
        refine ⟨h4, ?_, ?_⟩ <;> rw [hst] <;> simp [hp]
      · rw [if_neg h4]
        by_cases h5 : e.dispBrightness < 0
        · rw [if_pos h5]; right
          refine ⟨h5, ?_, ?_⟩ <;> rw [hst] <;> simp [hp]
        · rw [if_neg h5]
          by_cases h6 : (runWriteSeqs e.seqWrite 0 onSeqCmds).1 < 0
          · rw [if_pos h6]; right
            refine ⟨h6, ?_, ?_⟩ <;> rw [hst] <;> simp [hp]
          · rw [if_neg h6]
            by_cases h7 : e.exitSleep < 0
            · rw [if_pos h7]; right
              refine ⟨h7, ?_, ?_⟩ <;> rw [hst] <;> simp [hp]
            · rw [if_neg h7]
              by_cases h8 : e.compressionMode < 0
              · rw [if_pos h8]; right
                refine ⟨h8, ?_, ?_⟩ <;> rw [hst] <;> simp [hp]
              · rw [if_neg h8]
                by_cases h9 : e.blackFrame < 0
                · rw [if_pos h9]; right
                  refine ⟨h9, ?_, ?_⟩ <;> rw [hst] <;> simp [hp]
                · rw [if_neg h9]
                  by_cases h10 : e.displayOn < 0
                  · rw [if_pos h10]; right
                    refine ⟨h10, ?_, ?_⟩ <;> rw [hst] <;> simp [hp]
                  · rw [if_neg h10]
                    left
                    refine ⟨rfl, ?_⟩
                    unfold prepOpsSucceed
                    refine ⟨hf1, hf2, hf3, by omega, by omega, by omega, ?_,
                      by omega, by omega, by omega, by omega⟩
                    rcases hws with ⟨_, hall⟩ | hneg
                    · intro i hi; simpa using hall i hi
                    · omega
  · have hneg : (lg_panel_power_on e s).res < 0 := by
      rcases hsrc with h | h | h <;> omega
    unfold lg_panel_prepare_main
    dsimp only
    rw [if_neg (by simp [hp]), if_pos hneg]
    right
    refine ⟨hneg, ?_, ?_⟩ <;> rw [hst] <;> simp [hp]

theorem prepare_main_res_cases (e : Env) (s : PanelState) :
    (lg_panel_prepare_main e s).res < 0 ∨
    ((lg_panel_prepare_main e s).res = 0 ∧
      (lg_panel_prepare_main e s).st.prepared = true) := by
  unfold lg_panel_prepare_main
  dsimp only
  by_cases h1 : s.prepared = true
  · rw [if_pos h1]; right; exact ⟨rfl, h1⟩
  · rw [if_neg h1]
    by_cases h2 : (lg_panel_power_on e s).res < 0
    · rw [if_pos h2]; left; exact h2
    · rw [if_neg h2]
      by_cases h3 : e.tearOn < 0
      · rw [if_pos h3]; left; exact h3
      · rw [if_neg h3]
        by_cases h4 : e.pageAddress < 0
        · rw [if_pos h4]; left; exact h4
        · rw [if_neg h4]
          by_cases h5 : e.dispBrightness < 0
          · rw [if_pos h5]; left; exact h5
          · rw [if_neg h5]
            by_cases h6 : (runWriteSeqs e.seqWrite 0 onSeqCmds).1 < 0
            · rw [if_pos h6]; left; exact h6
            · rw [if_neg h6]
              by_cases h7 : e.exitSleep < 0
              · rw [if_pos h7]; left; exact h7
              · rw [if_neg h7]
                by_cases h8 : e.compressionMode < 0
                · rw [if_pos h8]; left; exact h8
                · rw [if_neg h8]
                  by_cases h9 : e.blackFrame < 0
                  · rw [if_pos h9]; left; exact h9
                  · rw [if_neg h9]
                    by_cases h10 : e.displayOn < 0
                    · rw [if_pos h10]; left; exact h10
                    · rw [if_neg h10]; right; exact ⟨rfl, by simp⟩

theorem prepare_of_fe_false (e : Env) (s : PanelState) (h : s.first_enable = false) :
    lg_panel_prepare e s = lg_panel_prepare_main e s := by
  unfold lg_panel_prepare
  rw [if_neg (by simp [h])]

theorem prepare_main_noop (e : Env) (s : PanelState) (hp : s.prepared = true) :
    lg_panel_prepare_main e s = ⟨0, s, []⟩ := by
  unfold lg_panel_prepare_main
  dsimp only
  rw [if_pos hp]

theorem prepare_res_cases (e : Env) (s : PanelState) :
    (lg_panel_prepare e s).res < 0 ∨
    ((lg_panel_prepare e s).res = 0 ∧ (lg_panel_prepare e s).st.prepared = true) := by
  unfold lg_panel_prepare
  dsimp only
  by_cases hfe : s.first_enable = true
  · rw [if_pos hfe]
    by_cases hres :
        (panel_reset_at_beginning e { s with first_enable := false }).res < 0
    · rw [if_pos hres]; exact Or.inl hres
    · rw [if_neg hres]
      exact prepare_main_res_cases e _
  · rw [if_neg hfe]
    exact prepare_main_res_cases e s

theorem enable_prepared_eq (e : Env) (s : PanelState) :
    (lg_panel_enable e s).st.prepared = s.prepared := by
  rcases enable_shape e s with h | h <;> rw [h]

theorem enable_fe_eq (e : Env) (s : PanelState) :
    (lg_panel_enable e s).st.first_enable = s.first_enable := by
  rcases enable_shape e s with h | h <;> rw [h]

theorem prepare_fe_of_false (e : Env) (s : PanelState) (h : s.first_enable = false) :
    (lg_panel_prepare e s).st.first_enable = false := by
  rcases prepare_fe_false e s with hf | hf
  · exact hf
  · rw [hf, h]

theorem reach_fe_false {s : PanelState} (h : Reach s) : s.first_enable = false := by
  induction h with
  | init => rfl
  | prep e _ ih => exact prepare_fe_of_false e _ ih
  | unprep _ ih => exact ih
  | en e _ ih => rw [enable_fe_eq]; exact ih
  | dis _ ih => exact ih

/-! ## Concrete environments and channels for witnesses -/

/-- Every leaf call succeeds. -/
def envAll : Env := {}

/-- Only the tear-on DCS setup call fails. -/
def envTearFail : Env := { tearOn := -22 }

/-- Only the suspend pinctrl selection in lg_panel_power_off fails. -/
def envOffPinFail : Env := { offPinctrlSuspend := -5 }

/-- Only the disable-load setting in lg_panel_power_off fails. -/
def envOffLoadFail : Env := { offSetLoadDisable := -7 }

/-- A DCS channel on which every write succeeds. -/
def chZero : Nat → Int := fun _ => 0

/-- A DCS channel on which the third write fails with -19 (-ENODEV). -/
def chFail3 : Nat → Int := fun i => if i = 2 then -19 else 0

/-! ## Sequential lemmas for the command batch engine -/

theorem sendLoop_all_ok (ch : Nat → Int) :
    ∀ (cs : List (List Nat)) (i : Nat),
      (∀ c ∈ cs, 2 ≤ c.length) →
      (∀ j, j < cs.length → 0 ≤ ch (i + j)) →
      sendLoop ch i (cs ++ [[]]) = some (0, specBatchTrace ch i cs) := by
  intro cs
  induction cs with
  | nil => intro i _ _; simp [sendLoop, specBatchTrace]
  | cons c rest ih =>
    intro i hlen hch
    have hc : 2 ≤ c.length := hlen c (by simp)
    have hne : ¬ c.length = 0 := by omega
    have h0 : 0 ≤ ch i := by simpa using hch 0 (by simp)
    have hrec := ih (i + 1) (fun x hx => hlen x (by simp [hx])) ?_
    · simp [sendLoop, hne, not_lt.mpr h0, hrec, specBatchTrace]
    · intro j hj
      have := hch (j + 1) (by simpa using Nat.succ_lt_succ hj)
      simpa [Nat.add_assoc, Nat.add_comm 1 j] using this

theorem sendLoop_fail_at (ch : Nat → Int) :
    ∀ (cs : List (List Nat)) (k i : Nat),
      (∀ c ∈ cs, 2 ≤ c.length) →
      k < cs.length →
      (∀ j, j < k → 0 ≤ ch (i + j)) →
      ch (i + k) < 0 →
      sendLoop ch i (cs ++ [[]]) =
        some (ch (i + k),
          specBatchTrace ch i (cs.take k) ++ [cmdWriteEv (ch (i + k)) (cs.getD k [])]) := by
  intro cs
  induction cs with
  | nil => intro k i _ hk _ _; simp at hk
  | cons c rest ih =>
    intro k i hlen hk hpre hfail
    have hc : 2 ≤ c.length := hlen c (by simp)
    have hne : ¬ c.length = 0 := by omega
    cases k with
    | zero =>
      have hf0 : ch i < 0 := by simpa using hfail
      simp [sendLoop, hne, hf0, specBatchTrace]
    | succ k =>
      have h0 : 0 ≤ ch i := by simpa using hpre 0 (Nat.succ_pos k)
      have hrec := ih k (i + 1) (fun x hx => hlen x (by simp [hx]))
        (by simpa using Nat.lt_of_succ_lt_succ hk)
        (fun j hj => by
          have := hpre (j + 1) (Nat.succ_lt_succ hj)
          simpa [Nat.add_assoc, Nat.add_comm 1 j] using this)
        (by
          have : i + (k + 1) = i + 1 + k := by omega
          rw [this] at hfail
          exact hfail)
      have harith : i + 1 + k = i + (k + 1) := by omega
      rw [harith] at hrec
      simp [sendLoop, hne, not_lt.mpr h0, hrec, specBatchTrace]

/-! ## Claim theorems -/

/-- C1: the claim says `first_enable` (the spec's firstBringUp) starts
true at construction and makes panel_reset_at_beginning run on exactly
the first prepare().  The code refutes this: panel_probe devm_kzallocs
panel_info, so `first_enable` starts FALSE and is never set true
anywhere, and consequently even the very first prepare() call performs
no rail pre-conditioning (its trace holds no bulk-disable, the action
unique to panel_reset_at_beginning within prepare), while a run of
panel_reset_at_beginning itself does bulk-disable the rails.  The flag
is also still false after that first call. -/
theorem c1_reset_at_beginning_never_runs :
    initialState.first_enable = false ∧
    (lg_panel_prepare envAll initialState).st.first_enable = false ∧
    ((lg_panel_prepare envAll initialState).evs.all fun ev => !isBulkDisableEv ev) = true ∧
    ((panel_reset_at_beginning envAll initialState).evs.any fun ev => isBulkDisableEv ev) = true := by
  refine ⟨rfl, ?_, ?_, ?_⟩ <;> decide

/-- C2: in any reachable not-yet-prepared state, if any of the leaf
operations of prepare() fails (power-on, DCS setup, init-table write,
sleep-exit, compression-mode, black-frame or display-on — that is,
prepOpsSucceed fails), prepare() returns a negative error, `prepared`
is still false, and the reset line is high on exit.  The two `≤ 0`
side conditions state the kernel return convention for
regulator_set_load and pinctrl_select_state (0 or negative errno),
whose failure the code tests with `!= 0`. -/
theorem c2_prepare_failure_surfaced (e : Env) (s : PanelState)
    (hok1 : e.poSetLoadEnable ≤ 0) (hok2 : e.poPinctrlActive ≤ 0)
    (hr : Reach s) (hp : s.prepared = false) (hf : ¬ prepOpsSucceed e) :
    (lg_panel_prepare e s).res < 0 ∧
    (lg_panel_prepare e s).st.prepared = false ∧
    (lg_panel_prepare e s).st.resetGpio = 1 := by
  have hfe := reach_fe_false hr
  rw [prepare_of_fe_false e s hfe]
  rcases prepare_main_spec e s hok1 hok2 hp with ⟨_, hsuc⟩ | h
  · exact absurd hsuc hf
  · exact h

theorem c2_witness :
    (lg_panel_prepare envTearFail initialState).res < 0 ∧
    (lg_panel_prepare envTearFail initialState).st.prepared = false ∧
    (lg_panel_prepare envTearFail initialState).st.resetGpio = 1 :=
  c2_prepare_failure_surfaced envTearFail initialState (by decide) (by decide)
    Reach.init rfl (by decide)

/-- C3: for a well-formed batch C1..Cn (every command at least
[delay, address]) followed by the zero-length sentinel, if every
channel write succeeds then send_mipi_cmds returns 0 and its trace is
exactly, in order: for each Ci one write — address-only when len = 2,
address plus trailing payload when len > 2 — immediately followed by
the delay encoded in Ci's first byte (in ms), before C(i+1). -/
theorem c3_batch_order (ch : Nat → Int) (cs : List (List Nat))
    (hlen : ∀ c ∈ cs, 2 ≤ c.length)
    (hch : ∀ j, j < cs.length → 0 ≤ ch j) :
    send_mipi_cmds ch (cs ++ [[]]) = some (0, specBatchTrace ch 0 cs) := by
  unfold send_mipi_cmds
  exact sendLoop_all_ok ch cs 0 hlen (by simpa using hch)

theorem c3_witness :
    send_mipi_cmds chZero ([[0, 0xaa, 1, 2], [5, 0xbb]] ++ [[]]) =
      some (0, specBatchTrace chZero 0 [[0, 0xaa, 1, 2], [5, 0xbb]]) :=
  c3_batch_order chZero [[0, 0xaa, 1, 2], [5, 0xbb]] (by decide) (by decide)

/-- C4: if the k-th (0-based) write of a sentinel-terminated batch
fails while all earlier writes succeed, send_mipi_cmds returns exactly
the channel's error for that write, the trace is the writes and delays
of the first k commands (left in place, no rollback or compensating
action) plus the single failed write attempt, and nothing of the later
commands nor any further delay is issued. -/
theorem c4_partial_failure (ch : Nat → Int) (cs : List (List Nat)) (k : Nat)
    (hlen : ∀ c ∈ cs, 2 ≤ c.length)
    (hk : k < cs.length)
    (hpre : ∀ j, j < k → 0 ≤ ch j)
    (hfail : ch k < 0) :
    send_mipi_cmds ch (cs ++ [[]]) =
      some (ch k,
        specBatchTrace ch 0 (cs.take k) ++ [cmdWriteEv (ch k) (cs.getD k [])]) := by
  unfold send_mipi_cmds
  have h := sendLoop_fail_at ch cs k 0 hlen hk (by simpa using hpre) (by simpa using hfail)
  simpa using h

theorem c4_witness :
    send_mipi_cmds chFail3 ([[0, 1, 9], [1, 2], [0, 3, 7], [2, 4], [0, 5]] ++ [[]]) =
      some (chFail3 2,
        specBatchTrace chFail3 0 ([[0, 1, 9], [1, 2], [0, 3, 7], [2, 4], [0, 5]].take 2) ++
          [cmdWriteEv (chFail3 2) ([[0, 1, 9], [1, 2], [0, 3, 7], [2, 4], [0, 5]].getD 2 [])]) :=
  c4_partial_failure chFail3 [[0, 1, 9], [1, 2], [0, 3, 7], [2, 4], [0, 5]] 2
    (by decide) (by decide) (by decide) (by decide)

/-- C5: prepare() is idempotent in every reachable state: if `prepared`
already holds, prepare() is a pure no-op — result 0, state untouched,
empty hardware trace; and after any successful prepare(), a second
prepare() (with any leaf outcomes) is such a no-op, so of two
consecutive calls only the first performs hardware I/O. -/
theorem c5_prepare_idempotent (e e2 : Env) (s : PanelState) (hr : Reach s) :
    (s.prepared = true → lg_panel_prepare e s = ⟨0, s, []⟩) ∧
    ((lg_panel_prepare e s).res = 0 →
      lg_panel_prepare e2 (lg_panel_prepare e s).st =
        ⟨0, (lg_panel_prepare e s).st, []⟩) := by
  have hfe := reach_fe_false hr
  constructor
  · intro hp
    rw [prepare_of_fe_false e s hfe, prepare_main_noop e s hp]
  · intro h0
    have hprep : (lg_panel_prepare e s).st.prepared = true := by
      rcases prepare_res_cases e s with h | ⟨_, h⟩
      · omega
      · exact h
    have hfe2 : (lg_panel_prepare e s).st.first_enable = false :=
      prepare_fe_of_false e s hfe
    rw [prepare_of_fe_false e2 _ hfe2, prepare_main_noop e2 _ hprep]

theorem c5_witness :
    lg_panel_prepare envAll (lg_panel_prepare envAll initialState).st =
      ⟨0, (lg_panel_prepare envAll initialState).st, []⟩ :=
  (c5_prepare_idempotent envAll envAll (lg_panel_prepare envAll initialState).st
    (Reach.prep envAll Reach.init)).1 (by decide)

/-- C6 counterexample: the claimed invariant "enabled implies prepared
in every reachable state" is false — lg_panel_enable never checks
`prepared`, so calling enable() directly on the freshly probed panel
(with a succeeding backlight) reaches a state with enabled = true and
prepared = false. -/
theorem c6_counterexample :
    ∃ s : PanelState, Reach s ∧ s.enabled = true ∧ s.prepared = false :=
  ⟨(lg_panel_enable envAll initialState).st, Reach.en envAll Reach.init,
    by decide, by decide⟩

/-- C6 amended: the invariant enabled → prepared does hold in every
state reachable when enable() is only invoked in already-prepared
states (the prepare-before-enable ordering the DRM framework
guarantees), since no transition ever clears `prepared` and enable() is
then the only setter of `enabled`. -/
theorem c6_enabled_implies_prepared (s : PanelState) (h : GReach s) :
    s.enabled = true → s.prepared = true := by
  induction h with
  | init => intro he; simp [initialState] at he
  | prep e _ ih =>
    intro he
    rw [prepare_enabled_eq] at he
    exact prepare_prepared_mono _ _ (ih he)
  | unprep _ ih => intro he; exact ih he
  | en e _ hprep _ =>
    intro _
    rw [enable_prepared_eq]
    exact hprep
  | dis _ ih => intro he; exact ih he

theorem c6_witness :
    (lg_panel_enable envAll (lg_panel_prepare envAll initialState).st).st.prepared = true :=
  c6_enabled_implies_prepared _
    (GReach.en envAll (GReach.prep envAll GReach.init) (by decide)) (by decide)

/-- C7 counterexample: power-off is not best-effort — when the suspend
pinctrl selection fails, lg_panel_power_off returns that error at once,
and its trace shows the disable-load setting and the bulk disable were
never attempted (no regulator action at all after the reset deassert). -/
theorem c7_counterexample :
    (lg_panel_power_off envOffPinFail initialState).res = -5 ∧
    (lg_panel_power_off envOffPinFail initialState).evs =
      [IOEv.gpioSet 0, IOEv.pinctrlSelect false (-5)] :=
  ⟨rfl, rfl⟩

/-- C7 amended: lg_panel_power_off always deasserts the reset line
first; but a pinctrl-suspend failure aborts immediately with that error
and no regulator step is attempted, and a disable-load failure aborts
immediately with that error without attempting the bulk disable; only
a failure of the final bulk disable is merely reported, its error
returned after every step was attempted. -/
theorem c7_power_off_aborts_on_failure (e : Env) (s : PanelState) :
    ((lg_panel_power_off e s).st.resetGpio = 0 ∧
      (lg_panel_power_off e s).evs.head? = some (IOEv.gpioSet 0)) ∧
    (e.offPinctrlSuspend ≠ 0 →
      (lg_panel_power_off e s).res = e.offPinctrlSuspend ∧
      ((lg_panel_power_off e s).evs.all fun ev => !touchesRegulator ev) = true) ∧
    (e.offPinctrlSuspend = 0 → e.offSetLoadDisable ≠ 0 →
      (lg_panel_power_off e s).res = e.offSetLoadDisable ∧
      ((lg_panel_power_off e s).evs.all fun ev => !isBulkDisableEv ev) = true) ∧
    (e.offPinctrlSuspend = 0 → e.offSetLoadDisable = 0 →
      (lg_panel_power_off e s).res = e.offBulkDisable ∧
      (lg_panel_power_off e s).evs =
        [IOEv.gpioSet 0, IOEv.pinctrlSelect false 0,
         IOEv.regSetLoad regulatorDisableLoad 0,
         IOEv.regBulkDisable e.offBulkDisable]) := by
  unfold lg_panel_power_off panel_set_pinctrl_state
  dsimp only
  by_cases h1 : e.offPinctrlSuspend = 0
  · rw [if_neg (by simp [h1])]
    by_cases h2 : e.offSetLoadDisable = 0
    · rw [if_neg (by simp [h2])]
      refine ⟨⟨rfl, rfl⟩, fun hc => absurd h1 hc, fun _ hc => absurd h2 hc,
        fun _ _ => ⟨rfl, ?_⟩⟩
      simp [h1, h2]
    · rw [if_pos h2]
      exact ⟨⟨rfl, rfl⟩, fun hc => absurd h1 hc, fun _ _ =>
        ⟨rfl, by simp [touchesRegulator, isBulkDisableEv]⟩,
        fun _ hc => absurd hc h2⟩
  · rw [if_pos h1]
    exact ⟨⟨rfl, rfl⟩, fun _ => ⟨rfl, by simp [touchesRegulator]⟩,
      fun hc _ => absurd hc h1, fun hc _ => absurd hc h1⟩

theorem c7_witness :
    (lg_panel_power_off envOffLoadFail initialState).res =
      envOffLoadFail.offSetLoadDisable ∧
    ((lg_panel_power_off envOffLoadFail initialState).evs.all
      fun ev => !isBulkDisableEv ev) = true :=
  (c7_power_off_aborts_on_failure envOffLoadFail initialState).2.2.1
    (by decide) (by decide)

/-- C8: the deployed lg_panel_unprepare and lg_panel_disable return 0
unconditionally in every state, perform no hardware I/O (empty trace)
and leave every panel state field unchanged (their real bodies are
compiled out behind an early `return 0` / `#if 0`). -/
theorem c8_teardown_noop (s : PanelState) :
    lg_panel_unprepare s = ⟨0, s, []⟩ ∧ lg_panel_disable s = ⟨0, s, []⟩ :=
  ⟨rfl, rfl⟩

/-- C9: the brightness value carried by the DCS set-display-brightness
write (0x51, sent low byte then high byte) is 0 whenever the request's
power is not FB_BLANK_UNBLANK, or its fb_blank is not FB_BLANK_UNBLANK,
or the BL_CORE_FBBLANK state bit is set; otherwise it is exactly the
requested brightness (any representable u16 value). -/
theorem c9_brightness_masking (ch : Int) (bl : BLProps) (s : PanelState) :
    ((bl.power ≠ FB_BLANK_UNBLANK ∨ bl.fb_blank ≠ FB_BLANK_UNBLANK ∨
        bl.state &&& BL_CORE_FBBLANK ≠ 0) →
      (lg_panel_backlight_update_status ch bl s).evs =
        [IOEv.dcsWrite 0x51 [0, 0] ch]) ∧
    (bl.power = FB_BLANK_UNBLANK → bl.fb_blank = FB_BLANK_UNBLANK →
      bl.state &&& BL_CORE_FBBLANK = 0 → bl.brightness < 65536 →
      (lg_panel_backlight_update_status ch bl s).evs =
        [IOEv.dcsWrite 0x51 [bl.brightness % 256, bl.brightness / 256] ch]) := by
  unfold lg_panel_backlight_update_status
  dsimp only
  constructor
  · intro hcond
    rw [if_pos hcond]
  · intro h1 h2 h3 h4
    rw [if_neg (by simp [h1, h2, h3])]
    rw [Nat.mod_eq_of_lt h4]

theorem c9_witness :
    (lg_panel_backlight_update_status 0 ⟨4, 0, 0, 200⟩ initialState).evs =
      [IOEv.dcsWrite 0x51 [0, 0] 0] ∧
    (lg_panel_backlight_update_status 0 ⟨0, 0, 0, 200⟩ initialState).evs =
      [IOEv.dcsWrite 0x51 [200 % 256, 200 / 256] 0] :=
  ⟨(c9_brightness_masking 0 ⟨4, 0, 0, 200⟩ initialState).1 (by decide),
   (c9_brightness_masking 0 ⟨0, 0, 0, 200⟩ initialState).2
     (by decide) (by decide) (by decide) (by decide)⟩

/-- C10: lg_panel_backlight_update_status stores the computed effective
brightness into the panel state before the DCS write: when the write
fails (negative channel outcome), the error is returned, yet the stored
brightness field already holds the same new effective value it would
hold on success, and the single write issued carries exactly that
stored value — the update is not rolled back on failure. -/
theorem c10_brightness_no_rollback (ch : Int) (bl : BLProps) (s : PanelState)
    (hch : ch < 0) :
    (lg_panel_backlight_update_status ch bl s).res = ch ∧
    (lg_panel_backlight_update_status ch bl s).res < 0 ∧
    (lg_panel_backlight_update_status ch bl s).st.brightness =
      (lg_panel_backlight_update_status 0 bl s).st.brightness ∧
    (lg_panel_backlight_update_status ch bl s).evs =
      [IOEv.dcsWrite 0x51
        [(lg_panel_backlight_update_status ch bl s).st.brightness % 65536 % 256,
         (lg_panel_backlight_update_status ch bl s).st.brightness % 65536 / 256] ch] :=
  ⟨rfl, hch, rfl, rfl⟩

theorem c10_witness :
    (lg_panel_backlight_update_status (-5) ⟨0, 0, 0, 123⟩ initialState).res = -5 ∧
    (lg_panel_backlight_update_status (-5) ⟨0, 0, 0, 123⟩ initialState).res < 0 ∧
    (lg_panel_backlight_update_status (-5) ⟨0, 0, 0, 123⟩ initialState).st.brightness =
      (lg_panel_backlight_update_status 0 ⟨0, 0, 0, 123⟩ initialState).st.brightness ∧
    (lg_panel_backlight_update_status (-5) ⟨0, 0, 0, 123⟩ initialState).evs =
      [IOEv.dcsWrite 0x51
        [(lg_panel_backlight_update_status (-5) ⟨0, 0, 0, 123⟩ initialState).st.brightness % 65536 % 256,
         (lg_panel_backlight_update_status (-5) ⟨0, 0, 0, 123⟩ initialState).st.brightness % 65536 / 256]
        (-5)] :=
  c10_brightness_no_rollback (-5) ⟨0, 0, 0, 123⟩ initialState (by decide)
